import Mathlib

/-!
Verification of the hot-spot reporter script (scripts/check-hotspots.py).

The script loads a level document and, for each layer whose type field
equals "hot_spots", scans the 2-D integer grid layer.world.tiles in
row-major order, printing one line per cell whose value is neither -1
nor 0, followed by a trailing total line.

The embedding below models the parsed document, the fixed code-to-name
dictionary, and the scan loops, with console output represented as the
list of printed lines. A hot_spots layer without a world record makes
the script raise a KeyError; that is modelled by the error case of
Except. Python f-strings are modelled as the corresponding string
concatenations.
-/

namespace CheckHotspots

/-- The world sub-record of a tile layer: the grid of integer tile
values, rows of columns. -/
structure World where
  tiles : List (List Int)
deriving DecidableEq

/-- A layer of the level document. Only the type tag and, for tile
layers, the world record are ever read by the script; a layer without
a world record has world = none. -/
structure Layer where
  type : String
  world : Option World
deriving DecidableEq

/-- A level document: an ordered sequence of layers. -/
structure Doc where
  layers : List Layer
deriving DecidableEq

/-- The key-value pairs of the dict literal hot_spot_names of the
script, in source order. The keys are pairwise distinct. -/
def hot_spot_table : List (Int × String) :=
  [(0, "NONE"),
   (1, "GO_RIGHT"), (2, "GO_LEFT"), (3, "GO_UP"), (4, "GO_DOWN"),
   (5, "GO_UP_RIGHT"), (6, "GO_UP_LEFT"), (7, "GO_DOWN_RIGHT"), (8, "GO_DOWN_LEFT"),
   (9, "WAIT_SHORT"), (10, "WAIT_MEDIUM"), (11, "WAIT_LONG"),
   (12, "ATTACK"), (13, "TALK"), (14, "WALK_AND_TALK"),
   (15, "TAKE_CAMERA_FOCUS"), (16, "RELEASE_CAMERA_FOCUS"),
   (17, "END_LEVEL"), (18, "GAME_EVENT"),
   (-2, "DEATH"), (-3, "COLLECT")]

/-- The dict hot_spot_names as a partial map from integer codes to
labels: the value at the matching key, if any. -/
def hot_spot_names (v : Int) : Option String :=
  (hot_spot_table.find? (fun p => p.1 == v)).map Prod.snd

/-- hot_spot_names.get(val, fallback): the label resolved for a cell
value, with the generic TYPE_ fallback for unmapped codes. -/
def hotSpotName (val : Int) : String :=
  (hot_spot_names val).getD ("TYPE_" ++ toString val)

/-- The per-cell output line of the script: two-space indent,
then [row][col] = val (name) -> pixel (x, y). -/
def cellLine (row_idx col_idx : Nat) (val : Int) : String :=
  let name := hotSpotName val
  let pixel_x := col_idx * 32
  let pixel_y := row_idx * 32
  "  [" ++ toString row_idx ++ "][" ++ toString col_idx ++ "] = " ++ toString val ++
    " (" ++ name ++ ") -> pixel (" ++ toString pixel_x ++ ", " ++ toString pixel_y ++ ")"

/-- The inner loop of the script: walk the cells of one row from
column index col_idx, threading the running count; returns the lines
printed for the row and the updated count. -/
def scanCells (row_idx : Nat) : Nat → Nat → List Int → List String × Nat
  | _, count, [] => ([], count)
  | col_idx, count, val :: rest =>
    if val ≠ -1 ∧ val ≠ 0 then
      let r := scanCells row_idx (col_idx + 1) (count + 1) rest
      (cellLine row_idx col_idx val :: r.1, r.2)
    else
      scanCells row_idx (col_idx + 1) count rest

/-- The outer loop of the script: walk the rows of the grid from row
index row_idx, threading the running count. -/
def scanRows : Nat → Nat → List (List Int) → List String × Nat
  | _, count, [] => ([], count)
  | row_idx, count, row :: rest =>
    let r := scanCells row_idx 0 count row
    let r2 := scanRows (row_idx + 1) r.2 rest
    (r.1 ++ r2.1, r2.2)

/-- Everything printed for one hot_spots layer: header line, per-cell
lines of the grid scan started with count = 0, then the total line. -/
def layerOutput (level_file : String) (tiles : List (List Int)) : List String :=
  let r := scanRows 0 0 tiles
  ("Hot spots in " ++ level_file ++ ":") :: r.1 ++ ["Total: " ++ toString r.2 ++ " hot spots"]

/-- The layer loop of the script: every layer whose type equals
"hot_spots" contributes its full report; other layers contribute
nothing. A hot_spots layer without a world record raises, modelled by
the error case. -/
def runLayers (level_file : String) : List Layer → Except String (List String)
  | [] => .ok []
  | layer :: rest =>
    if layer.type = "hot_spots" then
      match layer.world with
      | none => .error "KeyError: world"
      | some w => (runLayers level_file rest).map (fun out => layerOutput level_file w.tiles ++ out)
    else
      runLayers level_file rest

/-- The whole script after parsing: the complete standard output for a
given file path and parsed document, or an error. -/
def report (level_file : String) (d : Doc) : Except String (List String) :=
  runLayers level_file d.layers

/-- Spec-side description of one row: the cells of the row, paired
with their column indices starting at col_idx, whose value is neither
-1 nor 0, in ascending column order. -/
def hotCellsFrom (col_idx : Nat) (row : List Int) : List (Nat × Int) :=
  (List.enumFrom col_idx row).filter (fun q => decide (q.2 ≠ -1 ∧ q.2 ≠ 0))

/-- Spec-side description of the grid: the non-sentinel cells as
(row index, column index, value) triples, listed in row-major
ascending order starting at row index row_idx. -/
def rowMajorHotCellsFrom (row_idx : Nat) (tiles : List (List Int)) : List (Nat × Nat × Int) :=
  ((List.enumFrom row_idx tiles).map
    (fun p => (hotCellsFrom 0 p.2).map (fun q => (p.1, q.1, q.2)))).flatten

/-- Spec-side description of the grid scan order: the non-sentinel
cells of the grid in row-major ascending order. -/
def rowMajorHotCells (tiles : List (List Int)) : List (Nat × Nat × Int) :=
  rowMajorHotCellsFrom 0 tiles

/-- A document with two hot_spots layers, used to study the layer
loop across several matching layers. -/
def docTwoHotLayers : Doc :=
  ⟨[Layer.mk "hot_spots" (some ⟨[[1]]⟩), Layer.mk "hot_spots" (some ⟨[[2]]⟩)]⟩

/-! ### Helper lemmas about the scan loops -/

theorem scanCells_eq (row_idx : Nat) (row : List Int) : ∀ (col_idx count : Nat),
    scanCells row_idx col_idx count row =
      ((hotCellsFrom col_idx row).map (fun q => cellLine row_idx q.1 q.2),
       count + (hotCellsFrom col_idx row).length) := by
  induction row with
  | nil => intro c n; simp [scanCells, hotCellsFrom]
  | cons v rest ih =>
    intro c n
    by_cases h : v ≠ -1 ∧ v ≠ 0 <;>
      simp [scanCells, h, ih, hotCellsFrom, List.enumFrom_cons, List.filter_cons,
        Prod.mk.injEq]
    omega

theorem scanRows_eq (tiles : List (List Int)) : ∀ (row_idx count : Nat),
    scanRows row_idx count tiles =
      ((rowMajorHotCellsFrom row_idx tiles).map (fun t => cellLine t.1 t.2.1 t.2.2),
       count + (rowMajorHotCellsFrom row_idx tiles).length) := by
  induction tiles with
  | nil => intro r n; simp [scanRows, rowMajorHotCellsFrom]
  | cons row rest ih =>
    intro r n
    simp only [scanRows, scanCells_eq, ih, rowMajorHotCellsFrom, List.enumFrom_cons,
      List.map_cons, List.flatten_cons, List.map_append, List.length_append, List.map_map,
      List.length_map, Function.comp, Prod.mk.injEq]
    exact ⟨rfl, by omega⟩

theorem pairwise_fst_lt_enumFrom {α : Type _} (l : List α) : ∀ n : Nat,
    (List.enumFrom n l).Pairwise (fun a b => a.1 < b.1) := by
  induction l with
  | nil => intro n; simp
  | cons x xs ih =>
    intro n
    rw [List.enumFrom_cons]
    refine List.Pairwise.cons ?_ (ih (n + 1))
    rintro ⟨i, y⟩ hb
    have hm := (List.mem_enumFrom hb).1
    show n < i
    omega

theorem rowMajorHotCellsFrom_pairwise (tiles : List (List Int)) (row_idx : Nat) :
    (rowMajorHotCellsFrom row_idx tiles).Pairwise
      (fun a b => a.1 < b.1 ∨ (a.1 = b.1 ∧ a.2.1 < b.2.1)) := by
  unfold rowMajorHotCellsFrom
  rw [List.pairwise_flatten]
  constructor
  · intro l' hl'
    rw [List.mem_map] at hl'
    obtain ⟨p, hp, rfl⟩ := hl'
    refine List.Pairwise.map _ ?_ ((pairwise_fst_lt_enumFrom p.2 0).filter _)
    intro a b hab
    exact Or.inr ⟨rfl, hab⟩
  · rw [List.pairwise_map]
    refine List.Pairwise.imp ?_ (pairwise_fst_lt_enumFrom tiles row_idx)
    intro p q hpq x hx y hy
    rw [List.mem_map] at hx hy
    obtain ⟨a, _, rfl⟩ := hx
    obtain ⟨b, _, rfl⟩ := hy
    exact Or.inl hpq

theorem scanCells_of_sentinel (row_idx : Nat) (row : List Int)
    (h : ∀ val ∈ row, val = -1 ∨ val = 0) : ∀ (col_idx count : Nat),
    scanCells row_idx col_idx count row = ([], count) := by
  induction row with
  | nil => intro c n; simp [scanCells]
  | cons v rest ih =>
    intro c n
    have hv : ¬(v ≠ -1 ∧ v ≠ 0) := by
      have := h v (by simp)
      rcases this with h1 | h2
      · simp [h1]
      · simp [h2]
    rw [scanCells, if_neg hv]
    exact ih (fun val hval => h val (by simp [hval])) (c + 1) n

theorem scanRows_of_sentinel (tiles : List (List Int))
    (h : ∀ row ∈ tiles, ∀ val ∈ row, val = -1 ∨ val = 0) : ∀ (row_idx count : Nat),
    scanRows row_idx count tiles = ([], count) := by
  induction tiles with
  | nil => intro r n; simp [scanRows]
  | cons row rest ih =>
    intro r n
    rw [scanRows]
    rw [scanCells_of_sentinel r row (h row (by simp)) 0 n]
    rw [ih (fun row hrow => h row (by simp [hrow])) (r + 1) n]
    rfl

theorem runLayers_append_of_no_hot (level_file : String) (pre rest : List Layer)
    (h : ∀ l ∈ pre, l.type ≠ "hot_spots") :
    runLayers level_file (pre ++ rest) = runLayers level_file rest := by
  induction pre with
  | nil => rfl
  | cons a as ih =>
    have ha : a.type ≠ "hot_spots" := h a (by simp)
    rw [List.cons_append, runLayers, if_neg ha]
    exact ih (fun l hl => h l (by simp [hl]))

theorem runLayers_eq_nil_of_no_hot (level_file : String) (ls : List Layer)
    (h : ∀ l ∈ ls, l.type ≠ "hot_spots") :
    runLayers level_file ls = .ok [] := by
  have h2 := runLayers_append_of_no_hot level_file ls [] h
  rw [List.append_nil] at h2
  exact h2

theorem runLayers_cons_hot (level_file : String) (w : World) (rest : List Layer) :
    runLayers level_file (Layer.mk "hot_spots" (some w) :: rest) =
      (runLayers level_file rest).map (fun out => layerOutput level_file w.tiles ++ out) := rfl

theorem hotSpotName_ne_NONE (val : Int) (hv : val ≠ 0) : hotSpotName val ≠ "NONE" := by
  unfold hotSpotName
  cases hfind : hot_spot_names val with
  | none =>
    show "TYPE_" ++ toString val ≠ "NONE"
    intro hcontra
    have hlen := congrArg String.length hcontra
    rw [String.length_append] at hlen
    have ha : ("TYPE_" : String).length = 5 := rfl
    have hb : ("NONE" : String).length = 4 := rfl
    omega
  | some name =>
    simp only [Option.getD_some]
    rw [hot_spot_names, Option.map_eq_some'] at hfind
    obtain ⟨p, hp, hsnd⟩ := hfind
    have hmem := List.mem_of_find?_eq_some hp
    have hall : ∀ q ∈ hot_spot_table, q.2 = "NONE" → q.1 = 0 := by decide
    have hpred := List.find?_some hp
    have hkey : p.1 = val := by simpa using hpred
    intro hNONE
    exact hv (hkey ▸ hall p hmem (hsnd.trans hNONE))

/-! ### Claims -/

/-- Claim C1, counterexample: the layer loop has no break, so a second
layer whose type is also hot_spots does contribute output lines. On a
document with two hot_spots layers the output holds both full reports,
not only the first one. -/
theorem C1_counterexample :
    report "level.json" docTwoHotLayers =
      .ok ["Hot spots in level.json:",
           "  [0][0] = 1 (GO_RIGHT) -> pixel (0, 0)",
           "Total: 1 hot spots",
           "Hot spots in level.json:",
           "  [0][0] = 2 (GO_LEFT) -> pixel (0, 0)",
           "Total: 1 hot spots"]
    ∧ report "level.json" docTwoHotLayers ≠
      .ok ["Hot spots in level.json:",
           "  [0][0] = 1 (GO_RIGHT) -> pixel (0, 0)",
           "Total: 1 hot spots"] := by
  have h1 : report "level.json" docTwoHotLayers =
      .ok ["Hot spots in level.json:",
           "  [0][0] = 1 (GO_RIGHT) -> pixel (0, 0)",
           "Total: 1 hot spots",
           "Hot spots in level.json:",
           "  [0][0] = 2 (GO_LEFT) -> pixel (0, 0)",
           "Total: 1 hot spots"] := rfl
  refine ⟨h1, ?_⟩
  intro hcontra
  rw [h1] at hcontra
  exact absurd (Except.ok.inj hcontra) (by decide)

/-- Claim C1, amended: the reporter produces a report from every layer
whose type equals hot_spots, in document order; a second such layer
contributes its own header, cell lines and total after the first
report, rather than contributing nothing. -/
theorem C1_amended_every_hot_layer_reports (level_file : String)
    (pre mid post : List Layer) (w1 w2 : World)
    (hpre : ∀ l ∈ pre, l.type ≠ "hot_spots")
    (hmid : ∀ l ∈ mid, l.type ≠ "hot_spots")
    (hpost : ∀ l ∈ post, l.type ≠ "hot_spots") :
    report level_file
        ⟨pre ++ Layer.mk "hot_spots" (some w1) :: (mid ++ Layer.mk "hot_spots" (some w2) :: post)⟩ =
      .ok (layerOutput level_file w1.tiles ++ layerOutput level_file w2.tiles) := by
  unfold report
  rw [runLayers_append_of_no_hot level_file pre _ hpre, runLayers_cons_hot,
      runLayers_append_of_no_hot level_file mid _ hmid, runLayers_cons_hot,
      runLayers_eq_nil_of_no_hot level_file post hpost]
  show Except.ok (layerOutput level_file w1.tiles ++ (layerOutput level_file w2.tiles ++ [])) = _
  rw [List.append_nil]

/-- Claim C1, witness for the amended theorem: a document that is
exactly two hot_spots layers reports both, in order. -/
theorem C1_amended_witness :
    report "f.json" ⟨[Layer.mk "hot_spots" (some ⟨[[1]]⟩), Layer.mk "hot_spots" (some ⟨[[2]]⟩)]⟩ =
      .ok (layerOutput "f.json" [[1]] ++ layerOutput "f.json" [[2]]) :=
  C1_amended_every_hot_layer_reports "f.json" [] [] [] ⟨[[1]]⟩ ⟨[[2]]⟩
    (by simp) (by simp) (by simp)

/-- Claim C2: a cell produces an output line and increments the count
if and only if its value is neither -1 nor 0; the codes -2 and -3 are
mapped to DEATH and COLLECT, so such cells are counted and rendered
with those labels. -/
theorem C2_cell_emits_iff_non_sentinel :
    (∀ (row_idx col_idx count : Nat) (val : Int),
        scanCells row_idx col_idx count [val] =
          if val ≠ -1 ∧ val ≠ 0
          then ([cellLine row_idx col_idx val], count + 1)
          else ([], count))
    ∧ hot_spot_names (-2) = some "DEATH"
    ∧ hot_spot_names (-3) = some "COLLECT"
    ∧ hotSpotName (-2) = "DEATH"
    ∧ hotSpotName (-3) = "COLLECT"
    ∧ (∀ row_idx col_idx count : Nat,
        scanCells row_idx col_idx count [(-2 : Int)] = ([cellLine row_idx col_idx (-2)], count + 1)
        ∧ scanCells row_idx col_idx count [(-3 : Int)] =
            ([cellLine row_idx col_idx (-3)], count + 1)) := by
  have hcell : ∀ (row_idx col_idx count : Nat) (val : Int),
      scanCells row_idx col_idx count [val] =
        if val ≠ -1 ∧ val ≠ 0
        then ([cellLine row_idx col_idx val], count + 1)
        else ([], count) := by
    intro r c n v
    by_cases h : v ≠ -1 ∧ v ≠ 0 <;> simp [scanCells, h]
  refine ⟨hcell, rfl, rfl, rfl, rfl, fun r c n => ⟨?_, ?_⟩⟩
  · rw [hcell, if_pos (by decide)]
  · rw [hcell, if_pos (by decide)]

/-- Claim C3: a grid whose only non-sentinel cell has value 1 at row 2,
column 3 reports that cell as [2][3] = 1 (GO_RIGHT) -> pixel (96, 64)
with a final count of 1, and in general the pixel coordinates of a cell
line are x = column index * 32 and y = row index * 32. -/
theorem C3_single_cell_example_and_pixel_formula :
    layerOutput "level.json" [[-1, -1, -1, -1], [-1, -1, -1, -1], [-1, -1, -1, 1]] =
      ["Hot spots in level.json:",
       "  [2][3] = 1 (GO_RIGHT) -> pixel (96, 64)",
       "Total: 1 hot spots"]
    ∧ "[2][3] = 1 (GO_RIGHT) -> pixel (96, 64)".data <:+ (cellLine 2 3 1).data
    ∧ ∀ (row_idx col_idx : Nat) (val : Int),
        cellLine row_idx col_idx val =
          "  [" ++ toString row_idx ++ "][" ++ toString col_idx ++ "] = " ++ toString val ++
            " (" ++ hotSpotName val ++ ") -> pixel (" ++ toString (col_idx * 32) ++ ", " ++
            toString (row_idx * 32) ++ ")" :=
  ⟨rfl, by decide, fun _ _ _ => rfl⟩

/-- Claim C4: a document with no layer of type hot_spots prints
nothing at all and completes successfully. -/
theorem C4_no_hot_spots_layer_silent (level_file : String) (d : Doc)
    (h : ∀ l ∈ d.layers, l.type ≠ "hot_spots") :
    report level_file d = .ok [] :=
  runLayers_eq_nil_of_no_hot level_file d.layers h

/-- Claim C4, witness: a concrete document with two non-hot_spots
layers reports nothing. -/
theorem C4_witness :
    report "f.json" ⟨[Layer.mk "background" none, Layer.mk "objects" (some ⟨[[1]]⟩)]⟩ =
      .ok [] :=
  C4_no_hot_spots_layer_silent "f.json" _ (by decide)

/-- Claim C5: a document whose single hot_spots layer grid holds only
the sentinel values -1 and 0 reports exactly the header line and a
Total: 0 line, and nothing else. -/
theorem C5_all_sentinel_grid (level_file : String) (pre post : List Layer) (w : World)
    (hpre : ∀ l ∈ pre, l.type ≠ "hot_spots")
    (hpost : ∀ l ∈ post, l.type ≠ "hot_spots")
    (hcells : ∀ row ∈ w.tiles, ∀ val ∈ row, val = -1 ∨ val = 0) :
    report level_file ⟨pre ++ Layer.mk "hot_spots" (some w) :: post⟩ =
      .ok [("Hot spots in " ++ level_file ++ ":"), "Total: 0 hot spots"] := by
  unfold report
  rw [runLayers_append_of_no_hot level_file pre _ hpre, runLayers_cons_hot,
      runLayers_eq_nil_of_no_hot level_file post hpost]
  show Except.ok (layerOutput level_file w.tiles ++ []) = _
  rw [List.append_nil]
  unfold layerOutput
  rw [scanRows_of_sentinel w.tiles hcells 0 0]
  rfl

/-- Claim C5, witness: a concrete all-sentinel 2 x 2 grid reports only
the header and Total: 0. -/
theorem C5_witness :
    report "f.json" ⟨[Layer.mk "hot_spots" (some ⟨[[-1, 0], [0, -1]]⟩)]⟩ =
      .ok ["Hot spots in f.json:", "Total: 0 hot spots"] :=
  C5_all_sentinel_grid "f.json" [] [] ⟨[[-1, 0], [0, -1]]⟩ (by simp) (by simp) (by decide)

/-- Claim C6: the per-cell lines are exactly the non-sentinel cells of
the grid in row-major ascending order (no sorting, no deduplication),
that order is strictly increasing in (row index, column index), and
the trailing summary line carries a total equal to the number of cells
whose value is neither -1 nor 0. -/
theorem C6_row_major_order_and_total (level_file : String) (tiles : List (List Int)) :
    (scanRows 0 0 tiles).1 = (rowMajorHotCells tiles).map (fun t => cellLine t.1 t.2.1 t.2.2)
    ∧ (scanRows 0 0 tiles).2 = (rowMajorHotCells tiles).length
    ∧ List.Pairwise (fun a b => a.1 < b.1 ∨ (a.1 = b.1 ∧ a.2.1 < b.2.1)) (rowMajorHotCells tiles)
    ∧ layerOutput level_file tiles =
        ("Hot spots in " ++ level_file ++ ":") ::
          (rowMajorHotCells tiles).map (fun t => cellLine t.1 t.2.1 t.2.2) ++
          ["Total: " ++ toString (rowMajorHotCells tiles).length ++ " hot spots"] := by
  have h := scanRows_eq tiles 0 0
  refine ⟨by simp [h, rowMajorHotCells], by simp [h, rowMajorHotCells],
    rowMajorHotCellsFrom_pairwise tiles 0, ?_⟩
  unfold layerOutput
  simp [h, rowMajorHotCells]

/-- Claim C7: a cell value that is not a key of the fixed mapping gets
the generic label TYPE_ followed by the numeric value. -/
theorem C7_unmapped_code_type_label (val : Int) (h : hot_spot_names val = none) :
    hotSpotName val = "TYPE_" ++ toString val := by
  unfold hotSpotName
  rw [h]
  rfl

/-- Claim C7, witness: the unmapped code 42 renders as TYPE_42. -/
theorem C7_witness : hot_spot_names 42 = none ∧ hotSpotName 42 = "TYPE_42" :=
  ⟨rfl, (C7_unmapped_code_type_label 42 rfl).trans rfl⟩

/-- Claim C8: the reporter is deterministic; its output depends on
nothing but the path argument and the parsed document, so equal inputs
give identical output. -/
theorem C8_deterministic (level_file₁ level_file₂ : String) (d₁ d₂ : Doc)
    (hf : level_file₁ = level_file₂) (hd : d₁ = d₂) :
    report level_file₁ d₁ = report level_file₂ d₂ := by
  rw [hf, hd]

/-- Claim C8, witness: two runs on the same concrete input agree. -/
theorem C8_witness :
    report "level.json" docTwoHotLayers = report "level.json" docTwoHotLayers :=
  C8_deterministic "level.json" "level.json" docTwoHotLayers docTwoHotLayers rfl rfl

/-- Claim C9: the mapping assigns NONE to code 0, yet no emitted cell
line ever carries the label NONE: every emitted line comes from a cell
whose value is neither 0 nor -1, and the label of such a value is
never NONE. -/
theorem C9_no_NONE_label_line (tiles : List (List Int)) (line : String)
    (h : line ∈ (scanRows 0 0 tiles).1) :
    hot_spot_names 0 = some "NONE"
    ∧ ∃ row_idx col_idx val, line = cellLine row_idx col_idx val
        ∧ val ≠ 0 ∧ val ≠ -1 ∧ hotSpotName val ≠ "NONE" := by
  refine ⟨rfl, ?_⟩
  rw [scanRows_eq, List.mem_map] at h
  obtain ⟨t, ht, rfl⟩ := h
  unfold rowMajorHotCellsFrom at ht
  rw [List.mem_flatten] at ht
  obtain ⟨blk, hblk, htb⟩ := ht
  rw [List.mem_map] at hblk
  obtain ⟨p, hp, rfl⟩ := hblk
  rw [List.mem_map] at htb
  obtain ⟨q, hq, rfl⟩ := htb
  unfold hotCellsFrom at hq
  rw [List.mem_filter, decide_eq_true_eq] at hq
  obtain ⟨hqmem, hq1, hq0⟩ := hq
  exact ⟨p.1, q.1, q.2, rfl, hq0, hq1, hotSpotName_ne_NONE q.2 hq0⟩

/-- Claim C9, witness: the line printed for a cell of value 3 comes
from a non-sentinel value whose label is not NONE. -/
theorem C9_witness :
    hot_spot_names 0 = some "NONE"
    ∧ ∃ row_idx col_idx val,
        "  [0][0] = 3 (GO_UP) -> pixel (0, 0)" = cellLine row_idx col_idx val
        ∧ val ≠ 0 ∧ val ≠ -1 ∧ hotSpotName val ≠ "NONE" :=
  C9_no_NONE_label_line [[3]] "  [0][0] = 3 (GO_UP) -> pixel (0, 0)" (by decide)

/-- Claim C10: for a layer whose type is not hot_spots only the type
field is read; the rest of its structure, including whether it has a
world record at all, can neither change the output nor cause a
failure. Two documents whose layers agree on types, and on worlds for
the hot_spots layers, report identically. -/
theorem C10_non_hot_layers_only_type_read (level_file : String) (d d' : Doc)
    (h : List.Forall₂
      (fun l l' => l.type = l'.type ∧ (l.type = "hot_spots" → l.world = l'.world))
      d.layers d'.layers) :
    report level_file d = report level_file d' := by
  obtain ⟨ls⟩ := d
  obtain ⟨ls'⟩ := d'
  have h2 : List.Forall₂
      (fun l l' => l.type = l'.type ∧ (l.type = "hot_spots" → l.world = l'.world)) ls ls' := h
  show runLayers level_file ls = runLayers level_file ls'
  clear h
  induction h2 with
  | nil => rfl
  | @cons a b l1 l2 hab htail ih =>
    obtain ⟨htype, hworld⟩ := hab
    simp only [runLayers]
    rw [← htype]
    by_cases hh : a.type = "hot_spots"
    · rw [if_pos hh, if_pos hh, ← hworld hh]
      cases a.world with
      | none => rfl
      | some w => rw [ih]
    · rw [if_neg hh, if_neg hh]
      exact ih

/-- Claim C10, witness: giving a non-hot_spots layer a world record,
or none at all, leaves the report unchanged. -/
theorem C10_witness :
    report "f.json" ⟨[Layer.mk "background" none, Layer.mk "hot_spots" (some ⟨[[5]]⟩)]⟩ =
      report "f.json"
        ⟨[Layer.mk "background" (some ⟨[[7, 8], [9]]⟩), Layer.mk "hot_spots" (some ⟨[[5]]⟩)]⟩ :=
  C10_non_hot_layers_only_type_read "f.json" _ _
    (List.Forall₂.cons ⟨rfl, fun hcontra => absurd hcontra (by decide)⟩
      (List.Forall₂.cons ⟨rfl, fun _ => rfl⟩ List.Forall₂.nil))

end CheckHotspots
